import Mathlib

/-!
Shallow embedding of the winewayland.drv window-management code
(`dlls/winewayland.drv/window.c`): the window registry, the surface
role resolver (`wayland_win_data_update_wayland_surface`), the
configuration state machine (`wayland_configure_window`,
`wayland_win_data_update_wayland_state`) and the system-command handler
(`WAYLAND_SysCommand`), together with theorems checking the spec's
claims about them.

External window-system queries (NtUser*) are modelled as explicit
parameters; compositor protocol requests are modelled as emitted events.
Machine integers are modelled as `Nat`/`Int`; bit-sets of
`enum wayland_surface_config_state` are modelled as records of `Bool`s.
-/

namespace WineWayland

/-- A window-system rectangle (`RECT`), in window coordinates. -/
structure Rect where
  left : Int
  top : Int
  right : Int
  bottom : Int
deriving DecidableEq, Repr

/-- The `enum wayland_surface_config_state` bit-set: Maximized, Resizing,
Tiled, Fullscreen, each modelled as one boolean of membership. -/
structure SurfaceStateBits where
  maximized : Bool
  resizing : Bool
  tiled : Bool
  fullscreen : Bool
deriving DecidableEq, Repr

/-- The all-clear state bit-set (numeric value 0 in the source). -/
def SurfaceStateBits.zero : SurfaceStateBits :=
  { maximized := false, resizing := false, tiled := false, fullscreen := false }

/-- The test `state != 0` on the C bit-set: at least one bit is set. -/
def SurfaceStateBits.any (s : SurfaceStateBits) : Bool :=
  s.maximized || s.resizing || s.tiled || s.fullscreen

/-- The C `struct wayland_surface_config`: one compositor configuration snapshot
(`serial`, `processed`, suggested `width`/`height`, `state` bit-set). -/
structure SurfaceConfig where
  serial : Nat
  processed : Bool
  width : Int
  height : Int
  state : SurfaceStateBits
deriving DecidableEq, Repr

/-- The zeroed configuration produced by `memset(&surface->requested, 0, ...)`:
serial 0 means "no pending snapshot". -/
def SurfaceConfig.zero : SurfaceConfig :=
  { serial := 0, processed := false, width := 0, height := 0,
    state := SurfaceStateBits.zero }

/-- The C `struct wayland_window_config` (`surface->window`): the target window
state recorded on the surface by `wayland_win_data_get_config`. -/
structure WindowConfig where
  rect : Rect
  client_rect : Rect
  state : SurfaceStateBits
  scale : ℚ
  visible : Bool
  managed : Bool
deriving DecidableEq, Repr

/-- The C `enum wayland_surface_role`: None / Toplevel / Subsurface. -/
inductive Role where
  | roleNone
  | toplevel
  | subsurface
deriving DecidableEq, Repr

/-- The C `struct wayland_surface`, restricted to the fields `window.c` reads or
writes: the sticky `role` field, the presence of the role objects
(`xdg_toplevel`, `wl_subsurface`), the weak parent reference's hwnd, the
client-area subsurface flag, the three configuration generations and the
`resizing` flag, plus the recorded target window config. -/
structure Surface where
  hwnd : Nat
  role : Role
  xdg_toplevel : Bool
  wl_subsurface : Bool
  parent_hwnd : Option Nat
  client : Bool
  requested : SurfaceConfig
  processing : SurfaceConfig
  current : SurfaceConfig
  resizing : Bool
  window : WindowConfig
deriving DecidableEq, Repr

/-- The role a surface observably holds, determined by which role objects
exist on it (`xdg_toplevel` / `wl_subsurface`); the sticky `role` field may
stay set after `wayland_surface_clear_role`. -/
def observableRole (s : Surface) : Role :=
  if s.xdg_toplevel then Role.toplevel
  else if s.wl_subsurface then Role.subsurface
  else Role.roleNone

/-! ### SetWindowPos flags (winuser.h constants used by window.c) -/

def SWP_NOSIZE : Nat := 0x0001
def SWP_NOMOVE : Nat := 0x0002
def SWP_NOZORDER : Nat := 0x0004
def SWP_NOACTIVATE : Nat := 0x0010
def SWP_FRAMECHANGED : Nat := 0x0020
def SWP_NOOWNERZORDER : Nat := 0x0200
def SWP_NOSENDCHANGING : Nat := 0x0400

/-- A flag word carries a flag when the bitwise AND is non-zero. -/
def hasFlag (flags mask : Nat) : Bool := flags &&& mask ≠ 0

/-! ### Surface coordinate transforms

`wayland_surface_coords_from_window` / `wayland_surface_coords_to_window`
live in `wayland_surface.c`, which is not part of the sources; they are
modelled from the spec. -/

/-- Modelled from the spec: `wayland_surface_coords_from_window` (from
`wayland_surface.c`, not in the sources) translates window coordinates into
surface-local coordinates by dividing out the surface scale and rounding. -/
def wayland_surface_coords_from_window (scale : ℚ) (w h : Int) : Int × Int :=
  (round ((w : ℚ) / scale), round ((h : ℚ) / scale))

/-- Modelled from the spec: `wayland_surface_coords_to_window` (from
`wayland_surface.c`, not in the sources) translates surface-local
coordinates into window coordinates by applying the surface scale and
rounding. -/
def wayland_surface_coords_to_window (scale : ℚ) (w h : Int) : Int × Int :=
  (round ((w : ℚ) * scale), round ((h : ℚ) * scale))

/-! ### wayland_configure_window -/

/-- The `NtUserSetWindowPos` call issued at the end of
`wayland_configure_window` (position and insert-after arguments are the
constants 0 in the source, so only flags and size are recorded). -/
structure SetWindowPosCall where
  flags : Nat
  cx : Int
  cy : Int
deriving DecidableEq, Repr

/-- The observable effects of one `wayland_configure_window` call:
the WM_ENTERSIZEMOVE / WM_EXITSIZEMOVE messages, the WS_MAXIMIZE style
toggle, and the geometry (`set_window_pos`) call, if any. -/
structure ConfigureEffects where
  enterSizeMove : Bool
  exitSizeMove : Bool
  toggledMaximizeStyle : Bool
  geometry : Option SetWindowPosCall
deriving DecidableEq, Repr

/-- No observable effect (the early-return paths). -/
def ConfigureEffects.none : ConfigureEffects :=
  { enterSizeMove := false, exitSizeMove := false,
    toggledMaximizeStyle := false, geometry := Option.none }

/-- The flag word accumulated by `wayland_configure_window` for its
`set_window_pos` call, as a function of the four data-dependent
conditions, in the order the source builds it: an optional
SWP_FRAMECHANGED, an optional SWP_NOSIZE for a compatible fullscreen
size, the unconditional SWP_NOACTIVATE | SWP_NOZORDER |
SWP_NOOWNERZORDER | SWP_NOMOVE, an optional SWP_NOSIZE for a zero size
axis, and an optional SWP_NOSENDCHANGING for a strict-size state. -/
def configureFlags (frameChanged fullscreenCompatible zeroAxis
    strictSize : Bool) : Nat :=
  let f0 : Nat := if frameChanged then SWP_FRAMECHANGED else 0
  let f1 := if fullscreenCompatible then f0 ||| SWP_NOSIZE else f0
  let f2 := f1 ||| (SWP_NOACTIVATE ||| SWP_NOZORDER |||
                    SWP_NOOWNERZORDER ||| SWP_NOMOVE)
  let f3 := if zeroAxis then f2 ||| SWP_NOSIZE else f2
  if strictSize then f3 ||| SWP_NOSENDCHANGING else f3

/-- Function `wayland_configure_window` (window.c), acting on the locked surface of
the window.  `isCompatible` stands for `wayland_surface_config_is_compatible`
(defined in `wayland_surface.c`, not in the sources, so kept as an explicit
parameter); `styleMaximize` is the WS_MAXIMIZE bit read from
`NtUserGetWindowLongW(hwnd, GWL_STYLE)`.  Returns the updated surface and
the effects issued. -/
def wayland_configure_window
    (isCompatible : SurfaceConfig → Int → Int → SurfaceStateBits → Bool)
    (styleMaximize : Bool) (surface : Surface) :
    Surface × ConfigureEffects :=
  if !surface.xdg_toplevel then (surface, ConfigureEffects.none)
  else if surface.requested.serial = 0 then (surface, ConfigureEffects.none)
  else
    let s0 := { surface with processing := surface.requested,
                             requested := SurfaceConfig.zero }
    let state := s0.processing.state
    -- Ignore size hints if we don't have a state that requires strict
    -- size adherence, in order to avoid spurious resizes.
    let width : Int := if state.any then s0.processing.width else 0
    let height : Int := if state.any then s0.processing.height else 0
    let needsEnter := state.resizing && !s0.resizing
    let s1 := if needsEnter then { s0 with resizing := true } else s0
    let needsExit := !state.resizing && s1.resizing
    let s2 := if needsExit then { s1 with resizing := false } else s1
    let winSurf := wayland_surface_coords_from_window s2.window.scale
      (s2.window.rect.right - s2.window.rect.left)
      (s2.window.rect.bottom - s2.window.rect.top)
    let winSize := wayland_surface_coords_to_window s2.window.scale
      width height
    let flags := configureFlags
      -- Transitions between normal/max/fullscreen may entail a frame
      -- change.
      ((state.maximized != s2.current.state.maximized) ||
       (state.fullscreen != s2.current.state.fullscreen))
      -- If the window is already fullscreen and its size is compatible
      -- with the compositor request, don't force a resize.
      (s2.window.state.fullscreen &&
       isCompatible s2.processing winSurf.1 winSurf.2 s2.window.state)
      ((winSize.1 == 0) || (winSize.2 == 0))
      -- Maximized/fullscreen are strict about size; tiled indicates a
      -- strong preference.
      (state.maximized || state.fullscreen || state.tiled)
    (s2, { enterSizeMove := needsEnter, exitSizeMove := needsExit,
           toggledMaximizeStyle := state.maximized != styleMaximize,
           geometry := some ⟨flags, winSize.1, winSize.2⟩ })

/-- The surface-coordinate size of the window rectangle computed inside
`wayland_configure_window` and passed to the compatibility test. -/
def winSurfSize (s : Surface) : Int × Int :=
  wayland_surface_coords_from_window s.window.scale
    (s.window.rect.right - s.window.rect.left)
    (s.window.rect.bottom - s.window.rect.top)

/-- The window-coordinate size `wayland_configure_window` passes to its
geometry call when draining the surface's requested snapshot. -/
def drainedWindowSize (s : Surface) : Int × Int :=
  wayland_surface_coords_to_window s.window.scale
    (if s.requested.state.any then s.requested.width else 0)
    (if s.requested.state.any then s.requested.height else 0)

/-! ### wayland_win_data_update_wayland_state -/

/-- The xdg_toplevel state requests `wayland_win_data_update_wayland_state`
can issue to the compositor. -/
inductive XdgCall where
  | unset_maximized
  | unset_fullscreen
  | set_maximized
  | set_fullscreen
deriving DecidableEq, Repr

/-- An unset request. -/
def XdgCall.isUnset : XdgCall → Bool
  | XdgCall.unset_maximized => true
  | XdgCall.unset_fullscreen => true
  | _ => false

/-- A set request. -/
def XdgCall.isSet : XdgCall → Bool
  | XdgCall.set_maximized => true
  | XdgCall.set_fullscreen => true
  | _ => false

/-- Function `wayland_win_data_update_wayland_state` (window.c), acting on the
window's surface.  Returns the updated surface and the xdg_toplevel
protocol requests issued, in order. -/
def wayland_win_data_update_wayland_state (surface : Surface) :
    Surface × List XdgCall :=
  if surface.wl_subsurface then
    -- Subsurfaces have no dedicated config mechanism; mark them updated.
    ({ surface with processing :=
         { surface.processing with serial := 1, processed := true } }, [])
  else if !surface.xdg_toplevel then (surface, [])
  else
    let processing_config :=
      surface.processing.serial ≠ 0 && !surface.processing.processed
    if !processing_config then
      -- First do all state unsettings, before setting new state.
      let calls :=
        (if !surface.window.state.maximized &&
            surface.current.state.maximized
         then [XdgCall.unset_maximized] else []) ++
        (if !surface.window.state.fullscreen &&
            surface.current.state.fullscreen
         then [XdgCall.unset_fullscreen] else []) ++
        (if surface.window.state.maximized &&
            !surface.current.state.maximized
         then [XdgCall.set_maximized] else []) ++
        (if surface.window.state.fullscreen &&
            !surface.current.state.fullscreen
         then [XdgCall.set_fullscreen] else [])
      (surface, calls)
    else
      ({ surface with processing :=
           { surface.processing with processed := true } }, [])

/-! ### hittest_to_resize_edge and WAYLAND_SysCommand -/

/-- The C `enum xdg_toplevel_resize_edge`: the eight edge/corner selectors plus
the no-edge selector. -/
inductive ResizeEdge where
  | edgeNone
  | top
  | bottom
  | left
  | top_left
  | bottom_left
  | right
  | top_right
  | bottom_right
deriving DecidableEq, Repr

/-- WMSZ_* hit-test codes (winuser.h). -/
def WMSZ_LEFT : Nat := 1
def WMSZ_RIGHT : Nat := 2
def WMSZ_TOP : Nat := 3
def WMSZ_TOPLEFT : Nat := 4
def WMSZ_TOPRIGHT : Nat := 5
def WMSZ_BOTTOM : Nat := 6
def WMSZ_BOTTOMLEFT : Nat := 7
def WMSZ_BOTTOMRIGHT : Nat := 8

/-- Function `hittest_to_resize_edge` (window.c): map a WMSZ_* hit-test code to an
xdg_toplevel resize edge, defaulting to the no-edge selector. -/
def hittest_to_resize_edge (hittest : Nat) : ResizeEdge :=
  match hittest with
  | 1 => ResizeEdge.left
  | 2 => ResizeEdge.right
  | 3 => ResizeEdge.top
  | 4 => ResizeEdge.top_left
  | 5 => ResizeEdge.top_right
  | 6 => ResizeEdge.bottom
  | 7 => ResizeEdge.bottom_left
  | 8 => ResizeEdge.bottom_right
  | _ => ResizeEdge.edgeNone

/-- SC_* system commands (winuser.h). -/
def SC_SIZE : Nat := 0xf000
def SC_MOVE : Nat := 0xf010

/-- A protocol request issued by `WAYLAND_SysCommand` through the seat. -/
inductive SeatCall where
  | move (serial : Nat)
  | resize (serial : Nat) (edge : ResizeEdge)
deriving DecidableEq, Repr

/-- The environment `WAYLAND_SysCommand` reads: the raw wparam, whether the
pointer-focused hwnd is this window, the last pointer button serial, the
window's surface (if any), and whether a wl_seat exists. -/
structure SysCommandEnv where
  wparam : Nat
  focusedIsHwnd : Bool
  pointerButtonSerial : Nat
  surface : Option Surface
  hasSeat : Bool
deriving DecidableEq, Repr

/-- Function `WAYLAND_SysCommand` (window.c).  Returns the LRESULT (-1 means "not
handled") and the seat protocol requests issued. -/
def WAYLAND_SysCommand (env : SysCommandEnv) : Int × List SeatCall :=
  let command := env.wparam &&& 0xfff0
  let button_serial : Nat :=
    if env.focusedIsHwnd then env.pointerButtonSerial else 0
  if command = SC_MOVE || command = SC_SIZE then
    match env.surface with
    | some s =>
        let calls :=
          if env.hasSeat && s.xdg_toplevel && button_serial ≠ 0 then
            if command = SC_MOVE then [SeatCall.move button_serial]
            else if command = SC_SIZE then
              [SeatCall.resize button_serial
                 (hittest_to_resize_edge (env.wparam &&& 0x0f))]
            else []
          else []
        (0, calls)
    | Option.none => (-1, [])
  else (-1, [])

/-! ### Window registry (win_data_rb, wayland_win_data_create) -/

/-- The C `struct wayland_win_data`, restricted to the fields `window.c` uses:
the handle, the three rectangles, the managed flag, the owned wayland
surface and whether a window_surface (presentation bridge) is attached. -/
structure WinData where
  hwnd : Nat
  window_rect : Rect
  client_rect : Rect
  visible_rect : Rect
  managed : Bool
  wayland_surface : Option Surface
  window_surface : Bool
deriving DecidableEq, Repr

/-- The registry `win_data_rb`: an ordered map hwnd → record, modelled as
an association list keyed by hwnd. -/
abbrev Registry := List (Nat × WinData)

/-- Function `rb_get`: look up the record for a handle. -/
def rb_get (reg : Registry) (hwnd : Nat) : Option WinData :=
  (List.find? (fun e => e.1 = hwnd) reg).map (fun e => e.2)

/-- Function `rb_put`: insert a record under a handle. -/
def rb_put (reg : Registry) (hwnd : Nat) (d : WinData) : Registry :=
  (hwnd, d) :: reg

/-- The window-system facts `wayland_win_data_create` queries: the
window's parent (`NtUserGetAncestor(hwnd, GA_PARENT)`), the desktop
window, the parent's own parent, and whether `calloc` succeeds. -/
structure CreateEnv where
  parent : Option Nat
  desktop : Nat
  parentParent : Option Nat
  allocOk : Bool
deriving DecidableEq, Repr

/-- Function `wayland_win_data_create` (window.c): refuse desktop/HWND_MESSAGE
windows, allocate a record, then under the registry lock re-check for a
record another thread already inserted for the same handle; keep the
first record and discard the duplicate.  Returns the new registry and the
record handed to the caller. -/
def wayland_win_data_create (reg : Registry) (hwnd : Nat)
    (window_rect client_rect visible_rect : Rect) (env : CreateEnv) :
    Registry × Option WinData :=
  match env.parent with
  | Option.none => (reg, Option.none)
  | some parent =>
      if parent ≠ env.desktop && env.parentParent = Option.none then
        (reg, Option.none)
      else if !env.allocOk then (reg, Option.none)
      else
        let data : WinData :=
          { hwnd := hwnd, window_rect := window_rect,
            client_rect := client_rect, visible_rect := visible_rect,
            managed := false, wayland_surface := Option.none,
            window_surface := false }
        -- Check that another thread hasn't already created the win_data.
        match rb_get reg hwnd with
        | some existing => (reg, some existing)
        | Option.none => (rb_put reg hwnd data, some data)

/-! ### wayland_win_data_update_wayland_surface

The surface-role resolver.  The helpers it calls that live in
`wayland_surface.c` (create/destroy surface, clear role, make toplevel,
make subsurface) are not in the sources and are modelled from the spec;
the observable role of the window's surface slot is recorded in a trace
after every step that can change it. -/

/-- Modelled from the spec: `wayland_surface_create` (from
`wayland_surface.c`, not in the sources) yields a fresh role-less surface
for the window. -/
def wayland_surface_create (hwnd : Nat) : Surface :=
  { hwnd := hwnd, role := Role.roleNone, xdg_toplevel := false,
    wl_subsurface := false, parent_hwnd := Option.none, client := false,
    requested := SurfaceConfig.zero, processing := SurfaceConfig.zero,
    current := SurfaceConfig.zero, resizing := false,
    window := { rect := ⟨0, 0, 0, 0⟩, client_rect := ⟨0, 0, 0, 0⟩,
                state := SurfaceStateBits.zero, scale := 1,
                visible := false, managed := false } }

/-- Modelled from the spec: `wayland_surface_clear_role` (from
`wayland_surface.c`, not in the sources) destroys the role objects so the
surface observably holds no role, but keeps the sticky `role` field (a
surface may only receive the same role again). -/
def wayland_surface_clear_role (s : Surface) : Surface :=
  { s with xdg_toplevel := false, wl_subsurface := false }

/-- Modelled from the spec: `wayland_surface_make_toplevel` (from
`wayland_surface.c`, not in the sources) gives the surface the top-level
role. -/
def wayland_surface_make_toplevel (s : Surface) : Surface :=
  { s with role := Role.toplevel, xdg_toplevel := true }

/-- Modelled from the spec: `wayland_surface_make_subsurface` (from
`wayland_surface.c`, not in the sources) gives the surface the sub-surface
role anchored under the parent's surface. -/
def wayland_surface_make_subsurface (s : Surface) (parentHwnd : Nat) :
    Surface :=
  { s with role := Role.subsurface, wl_subsurface := true,
           parent_hwnd := some parentHwnd }

/-- The anchoring top-level parent as seen by
`wayland_win_data_update_wayland_surface`: its hwnd and its surface, if
its record exists in the registry. -/
structure ParentInfo where
  hwnd : Nat
  surface : Option Surface
deriving DecidableEq, Repr

/-- The window-system facts `wayland_win_data_update_wayland_surface`
queries: whether the window is visible, whether it has a parent distinct
from the desktop, the anchoring top-level parent record (if any), whether
surface creation succeeds, and the window config recorded by
`wayland_win_data_get_config`. -/
structure UwsEnv where
  visible : Bool
  hasNonDesktopParent : Bool
  parentData : Option ParentInfo
  createOk : Bool
  winConfig : WindowConfig
deriving DecidableEq, Repr

/-- Whether the parent record has a client-area subsurface on its surface
(`parent_data->wayland_surface->client`); the C code reads this under the
parent surface's lock. -/
def parentHasClient (p : Option ParentInfo) : Bool :=
  match p with
  | some pd => match pd.surface with
               | some ps => ps.client
               | Option.none => false
  | Option.none => false

/-- Function `wayland_win_data_needs_wayland_surface` (window.c): toplevel windows
need a surface; so does a window whose surface hosts a client-area
subsurface, or whose anchoring parent's surface does. -/
def wayland_win_data_needs_wayland_surface (env : UwsEnv) (data : WinData) :
    Bool :=
  if !env.hasNonDesktopParent then true
  else if (match data.wayland_surface with
           | some s => s.client
           | Option.none => false) then true
  else parentHasClient env.parentData

/-- The observable role of the window's surface slot: no surface means no
role. -/
def slotRole (o : Option Surface) : Role :=
  match o with
  | some s => observableRole s
  | Option.none => Role.roleNone

/-- Flag bits of `wayland_win_data_update_wayland_surface` (window.c). -/
structure UwsFlags where
  force_role_update : Bool
  force_create : Bool
  no_update_children : Bool
deriving DecidableEq, Repr

/-- The role-update block of `wayland_win_data_update_wayland_surface`
(window.c lines 326-371): clear a pre-existing surface's role, establish
the desired role if the window is visible, record the window config and
reattach the captured client.  `preexisting` is the source's
`data->wayland_surface` non-null test (the field before this invocation
updates it); `t` is the role trace accumulated so far. -/
def uwsRoleUpdate (env : UwsEnv) (flags : UwsFlags) (data : WinData)
    (preexisting : Bool) (role : Role) (client : Bool) (s : Surface)
    (t : List Role) : WinData × List Role :=
  let needsUpdate :=
    ((role = Role.toplevel) ≠ s.xdg_toplevel) ||
    ((role = Role.subsurface) ≠ s.wl_subsurface) ||
    (role = Role.subsurface &&
      (match s.parent_hwnd, env.parentData with
       | some ph, some pd => ph ≠ pd.hwnd
       | _, _ => false)) ||
    flags.force_role_update
  let step : Surface × List Role :=
    if needsUpdate then
      -- If we have a pre-existing surface ensure it has no role.
      let cleared : Surface × List Role :=
        if preexisting then
          (wayland_surface_clear_role s,
           t ++ [slotRole (some (wayland_surface_clear_role s))])
        else (s, t)
      -- If the window is visible give it a role.
      if role = Role.toplevel then
        (wayland_surface_make_toplevel cleared.1,
         cleared.2 ++
           [slotRole (some (wayland_surface_make_toplevel cleared.1))])
      else if role = Role.subsurface then
        let ph := match env.parentData with
                  | some pd => pd.hwnd
                  | Option.none => 0
        (wayland_surface_make_subsurface cleared.1 ph,
         cleared.2 ++
           [slotRole (some (wayland_surface_make_subsurface cleared.1 ph))])
      else cleared
    else (s, t)
  let s1 := { step.1 with window := env.winConfig }
  let s2 := if client then { s1 with client := true } else s1
  ({ data with wayland_surface := some s2 }, step.2)

/-- Function `wayland_win_data_update_wayland_surface` (window.c), for one window
(the bounded recursion into children re-invokes the same function on other
records and is not part of this per-window model).  Returns the updated
record together with the trace of observable roles held by the window's
surface slot: the initial role, then the role after every operation that
destroys, creates, clears or establishes a role. -/
def wayland_win_data_update_wayland_surface (env : UwsEnv)
    (flags : UwsFlags) (data : WinData) : WinData × List Role :=
  let surface0 := data.wayland_surface
  let t0 : List Role := [slotRole surface0]
  -- Destroy unused surfaces of child windows.
  if !wayland_win_data_needs_wayland_surface env data &&
     !flags.force_create then
    match surface0 with
    | some _ =>
        ({ data with wayland_surface := Option.none },
         t0 ++ [Role.roleNone])
    | Option.none => (data, t0)
  else
    let role : Role :=
      if env.visible then
        match env.parentData with
        | some pd => if pd.surface.isSome then Role.subsurface
                     else Role.toplevel
        | Option.none => Role.toplevel
      else Role.roleNone
    -- We can temporarily remove a role from a wayland surface and add it
    -- back, but we can't change a surface's role.
    let step1 : Option Surface × List Role × Bool :=
      match surface0 with
      | some s =>
          if role ≠ Role.roleNone && s.role ≠ Role.roleNone &&
             role ≠ s.role then
            (Option.none, t0 ++ [Role.roleNone], s.client)
          else (some s, t0, false)
      | Option.none => (Option.none, t0, false)
    let client := step1.2.2
    -- Ensure that we have a wayland surface.
    match step1.1 with
    | Option.none =>
        if !env.createOk then
          ({ data with wayland_surface := Option.none },
           step1.2.1 ++ [Role.roleNone])
        else
          uwsRoleUpdate env flags data data.wayland_surface.isSome role
            client (wayland_surface_create data.hwnd)
            (step1.2.1 ++ [slotRole (some (wayland_surface_create data.hwnd))])
    | some s => uwsRoleUpdate env flags data data.wayland_surface.isSome
        role client s step1.2.1

/-! ## Sample values used by the witness theorems -/

/-- A sample window configuration. -/
def sampleWindowConfig : WindowConfig :=
  { rect := ⟨0, 0, 800, 600⟩, client_rect := ⟨0, 0, 800, 600⟩,
    state := SurfaceStateBits.zero, scale := 1,
    visible := true, managed := true }

/-- A sample top-level surface with a pending configure snapshot
(serial 5, Maximized, 100×200). -/
def sampleSurface : Surface :=
  { hwnd := 1, role := Role.toplevel, xdg_toplevel := true,
    wl_subsurface := false, parent_hwnd := Option.none, client := false,
    requested := { serial := 5, processed := false, width := 100,
                   height := 200,
                   state := { maximized := true, resizing := false,
                              tiled := false, fullscreen := false } },
    processing := SurfaceConfig.zero, current := SurfaceConfig.zero,
    resizing := false, window := sampleWindowConfig }

/-! ## Theorems for the claims -/

/-- C2: for every surface with a pending compositor snapshot
(`requested.serial ≠ 0`) and a top-level role, one drain step
(`wayland_configure_window`) copies the whole requested snapshot into
`processing` and resets `requested` to the all-zero snapshot (serial 0). -/
theorem configure_drains_requested_once
    (isCompatible : SurfaceConfig → Int → Int → SurfaceStateBits → Bool)
    (styleMaximize : Bool) (s : Surface)
    (htop : s.xdg_toplevel = true) (hser : s.requested.serial ≠ 0) :
    (wayland_configure_window isCompatible styleMaximize s).1.processing =
      s.requested ∧
    (wayland_configure_window isCompatible styleMaximize s).1.requested =
      SurfaceConfig.zero := by
  unfold wayland_configure_window
  simp only [htop, Bool.not_true, Bool.false_eq_true, if_false, hser,
    if_neg hser]
  split_ifs <;> simp

/-- C2 witness: drain the sample surface (serial 5). -/
theorem configure_drains_requested_once_witness :
    (wayland_configure_window (fun _ _ _ _ => true) false
        sampleSurface).1.processing = sampleSurface.requested ∧
    (wayland_configure_window (fun _ _ _ _ => true) false
        sampleSurface).1.requested = SurfaceConfig.zero :=
  configure_drains_requested_once (fun _ _ _ _ => true) false sampleSurface
    (by decide) (by decide)

/-- C6: for every surface whose `requested.serial` equals 0, the drain
(`wayland_configure_window`) changes nothing about the surface (in
particular neither `processing` nor `current`) and issues no message,
style change or geometry call. -/
theorem configure_idempotent_when_no_request
    (isCompatible : SurfaceConfig → Int → Int → SurfaceStateBits → Bool)
    (styleMaximize : Bool) (s : Surface)
    (hser : s.requested.serial = 0) :
    wayland_configure_window isCompatible styleMaximize s =
      (s, ConfigureEffects.none) := by
  unfold wayland_configure_window
  rcases hx : s.xdg_toplevel <;> simp [hx, hser]

/-- C6 witness: drain the sample surface with its request cleared. -/
theorem configure_idempotent_when_no_request_witness :
    wayland_configure_window (fun _ _ _ _ => true) false
        { sampleSurface with requested := SurfaceConfig.zero } =
      ({ sampleSurface with requested := SurfaceConfig.zero },
       ConfigureEffects.none) :=
  configure_idempotent_when_no_request (fun _ _ _ _ => true) false
    { sampleSurface with requested := SurfaceConfig.zero } (by decide)

/-- C10: `hittest_to_resize_edge` is total with a safe default: it returns
each of the eight xdg edge/corner selectors exactly on the corresponding
WMSZ_* hit-test code, and the no-edge selector on every other input. -/
theorem hittest_to_resize_edge_total (h : Nat) :
    (hittest_to_resize_edge h = ResizeEdge.left ↔ h = WMSZ_LEFT) ∧
    (hittest_to_resize_edge h = ResizeEdge.right ↔ h = WMSZ_RIGHT) ∧
    (hittest_to_resize_edge h = ResizeEdge.top ↔ h = WMSZ_TOP) ∧
    (hittest_to_resize_edge h = ResizeEdge.top_left ↔ h = WMSZ_TOPLEFT) ∧
    (hittest_to_resize_edge h = ResizeEdge.top_right ↔ h = WMSZ_TOPRIGHT) ∧
    (hittest_to_resize_edge h = ResizeEdge.bottom ↔ h = WMSZ_BOTTOM) ∧
    (hittest_to_resize_edge h = ResizeEdge.bottom_left ↔
      h = WMSZ_BOTTOMLEFT) ∧
    (hittest_to_resize_edge h = ResizeEdge.bottom_right ↔
      h = WMSZ_BOTTOMRIGHT) ∧
    (hittest_to_resize_edge h = ResizeEdge.edgeNone ↔
      (h = 0 ∨ 9 ≤ h)) := by
  rcases h with _ | _ | _ | _ | _ | _ | _ | _ | _ | n
  all_goals refine ⟨?_, ?_, ?_, ?_, ?_, ?_, ?_, ?_, ?_⟩ <;>
    simp [hittest_to_resize_edge, WMSZ_LEFT, WMSZ_RIGHT, WMSZ_TOP,
      WMSZ_TOPLEFT, WMSZ_TOPRIGHT, WMSZ_BOTTOM, WMSZ_BOTTOMLEFT,
      WMSZ_BOTTOMRIGHT]

/-- C4: in every reconciliation pass of
`wayland_win_data_update_wayland_state` that is not processing a
compositor snapshot, whenever both Maximized and Fullscreen change
membership between the window state and the current state, the issued
protocol request list is exactly its unset requests followed by its set
requests: every applicable unset is issued before any set. -/
theorem update_state_unsets_before_sets (s : Surface)
    (hsub : s.wl_subsurface = false) (htop : s.xdg_toplevel = true)
    (hnp : s.processing.serial = 0 ∨ s.processing.processed = true)
    (hmax : s.window.state.maximized ≠ s.current.state.maximized)
    (hfs : s.window.state.fullscreen ≠ s.current.state.fullscreen) :
    (wayland_win_data_update_wayland_state s).2 =
      (wayland_win_data_update_wayland_state s).2.filter
          (fun c => c.isUnset) ++
        (wayland_win_data_update_wayland_state s).2.filter
          (fun c => c.isSet) := by
  have hpc : (s.processing.serial ≠ 0 && !s.processing.processed) = false := by
    rcases hnp with h | h <;> simp [h]
  unfold wayland_win_data_update_wayland_state
  rcases hwm : s.window.state.maximized <;>
    rcases hwf : s.window.state.fullscreen <;>
    rcases hcm : s.current.state.maximized <;>
    rcases hcf : s.current.state.fullscreen <;>
    simp_all [XdgCall.isUnset, XdgCall.isSet]

/-- C4 witness: window state Maximized, current state Fullscreen — the
unset-fullscreen request precedes the set-maximized request. -/
theorem update_state_unsets_before_sets_witness :
    (wayland_win_data_update_wayland_state
        { sampleSurface with
            window := { sampleWindowConfig with
              state := { maximized := true, resizing := false,
                         tiled := false, fullscreen := false } },
            current := { SurfaceConfig.zero with
              state := { maximized := false, resizing := false,
                         tiled := false, fullscreen := true } } }).2 =
      (wayland_win_data_update_wayland_state
        { sampleSurface with
            window := { sampleWindowConfig with
              state := { maximized := true, resizing := false,
                         tiled := false, fullscreen := false } },
            current := { SurfaceConfig.zero with
              state := { maximized := false, resizing := false,
                         tiled := false, fullscreen := true } } }).2.filter
          (fun c => c.isUnset) ++
        (wayland_win_data_update_wayland_state
        { sampleSurface with
            window := { sampleWindowConfig with
              state := { maximized := true, resizing := false,
                         tiled := false, fullscreen := false } },
            current := { SurfaceConfig.zero with
              state := { maximized := false, resizing := false,
                         tiled := false, fullscreen := true } } }).2.filter
          (fun c => c.isSet) :=
  update_state_unsets_before_sets _ (by decide) (by decide)
    (Or.inl (by decide)) (by decide) (by decide)

/-- Characterization of the geometry call issued on the draining path of
`wayland_configure_window`: its flags are `configureFlags` of the four
conditions and its size is the drained window size. -/
theorem configure_geometry_characterization
    (isCompatible : SurfaceConfig → Int → Int → SurfaceStateBits → Bool)
    (styleMaximize : Bool) (s : Surface)
    (htop : s.xdg_toplevel = true) (hser : s.requested.serial ≠ 0) :
    (wayland_configure_window isCompatible styleMaximize s).2.geometry =
      some ⟨configureFlags
          ((s.requested.state.maximized != s.current.state.maximized) ||
           (s.requested.state.fullscreen != s.current.state.fullscreen))
          (s.window.state.fullscreen &&
           isCompatible s.requested (winSurfSize s).1 (winSurfSize s).2
             s.window.state)
          (((drainedWindowSize s).1 == 0) || ((drainedWindowSize s).2 == 0))
          (s.requested.state.maximized || s.requested.state.fullscreen ||
           s.requested.state.tiled),
        (drainedWindowSize s).1, (drainedWindowSize s).2⟩ := by
  unfold wayland_configure_window winSurfSize drainedWindowSize
  simp only [htop, Bool.not_true, Bool.false_eq_true, if_false,
    if_neg hser]
  split_ifs <;> rfl

/-- The four no-change flags are on every flag word
`wayland_configure_window` can build. -/
theorem configureFlags_base (a b c d : Bool) :
    hasFlag (configureFlags a b c d) SWP_NOACTIVATE = true ∧
    hasFlag (configureFlags a b c d) SWP_NOZORDER = true ∧
    hasFlag (configureFlags a b c d) SWP_NOOWNERZORDER = true ∧
    hasFlag (configureFlags a b c d) SWP_NOMOVE = true := by
  cases a <;> cases b <;> cases c <;> cases d <;> decide

/-- A strict-size state always contributes SWP_NOSENDCHANGING. -/
theorem configureFlags_strictSize (a b c : Bool) :
    hasFlag (configureFlags a b c true) SWP_NOSENDCHANGING = true := by
  cases a <;> cases b <;> cases c <;> decide

/-- A compatible fullscreen size always contributes SWP_NOSIZE. -/
theorem configureFlags_nosize_of_compatible (a c d : Bool) :
    hasFlag (configureFlags a true c d) SWP_NOSIZE = true := by
  cases a <;> cases c <;> cases d <;> decide

/-- A zero size axis always contributes SWP_NOSIZE. -/
theorem configureFlags_nosize_of_zeroAxis (a b d : Bool) :
    hasFlag (configureFlags a b true d) SWP_NOSIZE = true := by
  cases a <;> cases b <;> cases d <;> decide

/-- C8: every geometry call issued by `wayland_configure_window` carries
the no-activate, no-z-order, no-owner-z-order and no-move flags, and when
the drained state has Maximized, Fullscreen or Tiled set it additionally
carries the no-send-changing flag. -/
theorem configure_geometry_flags
    (isCompatible : SurfaceConfig → Int → Int → SurfaceStateBits → Bool)
    (styleMaximize : Bool) (s : Surface)
    (htop : s.xdg_toplevel = true) (hser : s.requested.serial ≠ 0) :
    ∃ c, (wayland_configure_window isCompatible styleMaximize
            s).2.geometry = some c ∧
      hasFlag c.flags SWP_NOACTIVATE = true ∧
      hasFlag c.flags SWP_NOZORDER = true ∧
      hasFlag c.flags SWP_NOOWNERZORDER = true ∧
      hasFlag c.flags SWP_NOMOVE = true ∧
      ((s.requested.state.maximized || s.requested.state.fullscreen ||
          s.requested.state.tiled) = true →
        hasFlag c.flags SWP_NOSENDCHANGING = true) := by
  refine ⟨_, configure_geometry_characterization isCompatible
    styleMaximize s htop hser, (configureFlags_base _ _ _ _).1,
    (configureFlags_base _ _ _ _).2.1,
    (configureFlags_base _ _ _ _).2.2.1,
    (configureFlags_base _ _ _ _).2.2.2, ?_⟩
  intro h
  rw [h]
  exact configureFlags_strictSize _ _ _

/-- C8 witness: the geometry call for the sample (maximized) snapshot
carries all four no-change flags and the no-send-changing flag. -/
theorem configure_geometry_flags_witness :
    ∃ c, (wayland_configure_window (fun _ _ _ _ => true) false
            sampleSurface).2.geometry = some c ∧
      hasFlag c.flags SWP_NOACTIVATE = true ∧
      hasFlag c.flags SWP_NOZORDER = true ∧
      hasFlag c.flags SWP_NOOWNERZORDER = true ∧
      hasFlag c.flags SWP_NOMOVE = true ∧
      ((sampleSurface.requested.state.maximized ||
          sampleSurface.requested.state.fullscreen ||
          sampleSurface.requested.state.tiled) = true →
        hasFlag c.flags SWP_NOSENDCHANGING = true) :=
  configure_geometry_flags (fun _ _ _ _ => true) false sampleSurface
    (by decide) (by decide)

/-- C7: a drained configuration whose state bit-set is zero uses 0 for
both size axes, and the geometry call carries the no-size flag, so a
zero-state configure never resizes the window. -/
theorem configure_zero_state_never_resizes
    (isCompatible : SurfaceConfig → Int → Int → SurfaceStateBits → Bool)
    (styleMaximize : Bool) (s : Surface)
    (htop : s.xdg_toplevel = true) (hser : s.requested.serial ≠ 0)
    (hstate : s.requested.state = SurfaceStateBits.zero) :
    ∃ c, (wayland_configure_window isCompatible styleMaximize
            s).2.geometry = some c ∧
      c.cx = 0 ∧ c.cy = 0 ∧ hasFlag c.flags SWP_NOSIZE = true := by
  have hsz : drainedWindowSize s = (0, 0) := by
    simp [drainedWindowSize, hstate, SurfaceStateBits.any,
      SurfaceStateBits.zero, wayland_surface_coords_to_window]
  refine ⟨_, configure_geometry_characterization isCompatible
    styleMaximize s htop hser, ?_, ?_, ?_⟩
  · rw [hsz]
  · rw [hsz]
  · rw [hsz]
    simpa using configureFlags_nosize_of_zeroAxis _ _ _

/-- C7 witness: drain a zero-state snapshot on the sample surface. -/
theorem configure_zero_state_never_resizes_witness :
    ∃ c, (wayland_configure_window (fun _ _ _ _ => true) false
            { sampleSurface with requested :=
                { sampleSurface.requested with
                    state := SurfaceStateBits.zero } }).2.geometry =
          some c ∧
      c.cx = 0 ∧ c.cy = 0 ∧ hasFlag c.flags SWP_NOSIZE = true :=
  configure_zero_state_never_resizes (fun _ _ _ _ => true) false
    { sampleSurface with requested :=
        { sampleSurface.requested with state := SurfaceStateBits.zero } }
    (by decide) (by decide) (by decide)

/-- C5: when the window state is fullscreen and the drained snapshot's
suggested size is compatible (per `wayland_surface_config_is_compatible`
applied to the surface-coordinate window size), the geometry call carries
the no-size flag. -/
theorem configure_fullscreen_compatible_keeps_size
    (isCompatible : SurfaceConfig → Int → Int → SurfaceStateBits → Bool)
    (styleMaximize : Bool) (s : Surface)
    (htop : s.xdg_toplevel = true) (hser : s.requested.serial ≠ 0)
    (hfs : s.window.state.fullscreen = true)
    (hcompat : isCompatible s.requested (winSurfSize s).1 (winSurfSize s).2
        s.window.state = true) :
    ∃ c, (wayland_configure_window isCompatible styleMaximize
            s).2.geometry = some c ∧
      hasFlag c.flags SWP_NOSIZE = true := by
  refine ⟨_, configure_geometry_characterization isCompatible
    styleMaximize s htop hser, ?_⟩
  rw [hfs, hcompat]
  simpa using configureFlags_nosize_of_compatible _ _ _

/-- C5 witness: fullscreen window state, compatibility test returning
true — the geometry call keeps the size. -/
theorem configure_fullscreen_compatible_keeps_size_witness :
    ∃ c, (wayland_configure_window (fun _ _ _ _ => true) false
            { sampleSurface with window :=
                { sampleWindowConfig with
                    state := { maximized := false, resizing := false,
                               tiled := false,
                               fullscreen := true } } }).2.geometry =
          some c ∧
      hasFlag c.flags SWP_NOSIZE = true :=
  configure_fullscreen_compatible_keeps_size (fun _ _ _ _ => true) false
    { sampleSurface with window :=
        { sampleWindowConfig with
            state := { maximized := false, resizing := false,
                       tiled := false, fullscreen := true } } }
    (by decide) (by decide) (by decide) rfl

/-- C3: the registry holds at most one record per handle.
`wayland_win_data_create` preserves distinctness of the registry's keys,
and when a record for the handle already exists it leaves the registry
unchanged and any record it returns is that existing record (the racing
allocation is discarded). -/
theorem win_data_create_at_most_one_record (reg : Registry) (hwnd : Nat)
    (wr cr vr : Rect) (env : CreateEnv)
    (hnodup : (reg.map Prod.fst).Nodup) :
    ((wayland_win_data_create reg hwnd wr cr vr env).1.map
        Prod.fst).Nodup ∧
    (∀ r, rb_get reg hwnd = some r →
      (wayland_win_data_create reg hwnd wr cr vr env).1 = reg ∧
      ∀ x, (wayland_win_data_create reg hwnd wr cr vr env).2 = some x →
        x = r) := by
  have hkey : rb_get reg hwnd = Option.none → hwnd ∉ reg.map Prod.fst := by
    intro hnone hmem
    obtain ⟨⟨k, d⟩, hkd, hk⟩ := List.mem_map.mp hmem
    rcases hfind : List.find? (fun e => e.1 = hwnd) reg with _ | e
    · have := List.find?_eq_none.mp hfind ⟨k, d⟩ hkd
      exact this (by simpa using hk)
    · rw [rb_get, hfind] at hnone
      simp at hnone
  unfold wayland_win_data_create
  rcases hp : env.parent with _ | parent <;> simp only [hp]
  · exact ⟨hnodup, by simp⟩
  · split_ifs with h1 h2
    · exact ⟨hnodup, by simp⟩
    · exact ⟨hnodup, by simp⟩
    · rcases hget : rb_get reg hwnd with _ | existing <;> simp only [hget]
      · refine ⟨?_, by simp⟩
        simp only [rb_put, List.map_cons, List.nodup_cons]
        exact ⟨hkey hget, hnodup⟩
      · refine ⟨hnodup, fun r hr => ⟨by trivial, fun x hx => ?_⟩⟩
        simp_all

/-- C3 witness: a registry already holding handle 7 — creation for 7
leaves it unchanged and returns the existing record. -/
theorem win_data_create_at_most_one_record_witness :
    (((wayland_win_data_create
        [(7, { hwnd := 7, window_rect := ⟨0, 0, 1, 1⟩,
               client_rect := ⟨0, 0, 1, 1⟩, visible_rect := ⟨0, 0, 1, 1⟩,
               managed := false, wayland_surface := Option.none,
               window_surface := false })] 7 ⟨0, 0, 2, 2⟩ ⟨0, 0, 2, 2⟩
        ⟨0, 0, 2, 2⟩
        { parent := some 2, desktop := 2, parentParent := Option.none,
          allocOk := true }).1.map Prod.fst).Nodup) ∧
    (∀ r, rb_get
        [(7, { hwnd := 7, window_rect := ⟨0, 0, 1, 1⟩,
               client_rect := ⟨0, 0, 1, 1⟩, visible_rect := ⟨0, 0, 1, 1⟩,
               managed := false, wayland_surface := Option.none,
               window_surface := false })] 7 = some r →
      (wayland_win_data_create
        [(7, { hwnd := 7, window_rect := ⟨0, 0, 1, 1⟩,
               client_rect := ⟨0, 0, 1, 1⟩, visible_rect := ⟨0, 0, 1, 1⟩,
               managed := false, wayland_surface := Option.none,
               window_surface := false })] 7 ⟨0, 0, 2, 2⟩ ⟨0, 0, 2, 2⟩
        ⟨0, 0, 2, 2⟩
        { parent := some 2, desktop := 2, parentParent := Option.none,
          allocOk := true }).1 =
        [(7, { hwnd := 7, window_rect := ⟨0, 0, 1, 1⟩,
               client_rect := ⟨0, 0, 1, 1⟩, visible_rect := ⟨0, 0, 1, 1⟩,
               managed := false, wayland_surface := Option.none,
               window_surface := false })] ∧
      ∀ x, (wayland_win_data_create
        [(7, { hwnd := 7, window_rect := ⟨0, 0, 1, 1⟩,
               client_rect := ⟨0, 0, 1, 1⟩, visible_rect := ⟨0, 0, 1, 1⟩,
               managed := false, wayland_surface := Option.none,
               window_surface := false })] 7 ⟨0, 0, 2, 2⟩ ⟨0, 0, 2, 2⟩
        ⟨0, 0, 2, 2⟩
        { parent := some 2, desktop := 2, parentParent := Option.none,
          allocOk := true }).2 = some x → x = r) :=
  win_data_create_at_most_one_record _ 7 _ _ _ _ (by decide)

/-- A concrete `WAYLAND_SysCommand` environment: SC_MOVE for the
pointer-focused window, button serial 0, a wayland surface with the
top-level role present, and a seat present. -/
def sysCommandCexEnv : SysCommandEnv :=
  { wparam := 0xf010, focusedIsHwnd := true, pointerButtonSerial := 0,
    surface := some sampleSurface, hasSeat := true }

/-- C9 counterexample: an SC_MOVE system command with no
pointer-button-press serial available (button_serial is 0) for a window
that has a wayland surface.  No move/resize protocol request is issued,
but `WAYLAND_SysCommand` returns 0, not the not-handled result -1 the
claim states. -/
theorem syscommand_no_serial_returns_zero_counterexample :
    sysCommandCexEnv.wparam &&& 0xfff0 = SC_MOVE ∧
    (if sysCommandCexEnv.focusedIsHwnd then
       sysCommandCexEnv.pointerButtonSerial else 0) = 0 ∧
    (WAYLAND_SysCommand sysCommandCexEnv).2 = [] ∧
    (WAYLAND_SysCommand sysCommandCexEnv).1 ≠ -1 := by
  decide

/-- C9 (amended): for every move/resize system command (SC_MOVE or
SC_SIZE) delivered when no pointer-button-press serial is available
(button_serial is 0), no interactive move/resize protocol request is
issued; the call returns the not-handled result -1 exactly when the
window has no wayland surface, and returns 0 (consuming the command)
when a surface exists. -/
theorem syscommand_no_serial_no_request (env : SysCommandEnv)
    (hcmd : env.wparam &&& 0xfff0 = SC_MOVE ∨
            env.wparam &&& 0xfff0 = SC_SIZE)
    (hser : (if env.focusedIsHwnd then env.pointerButtonSerial else 0)
      = 0) :
    (WAYLAND_SysCommand env).2 = [] ∧
    (WAYLAND_SysCommand env).1 =
      (if env.surface.isSome then 0 else -1) := by
  rcases hcmd with h | h <;>
    rcases hs : env.surface with _ | s <;>
      simp [WAYLAND_SysCommand, h, hser, hs, SC_MOVE, SC_SIZE]

/-- C9 (amended) witness: SC_SIZE with the pointer focused elsewhere and
no surface — nothing is issued and -1 is returned. -/
theorem syscommand_no_serial_no_request_witness :
    (WAYLAND_SysCommand
        { wparam := 0xf000, focusedIsHwnd := false,
          pointerButtonSerial := 7, surface := Option.none,
          hasSeat := true }).2 = [] ∧
    (WAYLAND_SysCommand
        { wparam := 0xf000, focusedIsHwnd := false,
          pointerButtonSerial := 7, surface := Option.none,
          hasSeat := true }).1 =
      (if (Option.none : Option Surface).isSome then 0 else -1) :=
  syscommand_no_serial_no_request _ (Or.inr (by decide)) (by decide)

/-- Compatibility of two successive observable roles: at least one is
None, or they are equal.  A direct transition between two different
non-None roles violates it. -/
def roleStepOk (a b : Role) : Prop :=
  a = Role.roleNone ∨ b = Role.roleNone ∨ a = b

/-- Appending an observation of role None keeps a role trace compatible. -/
theorem roleChain_snoc_none (t : List Role)
    (ht : List.Chain' roleStepOk t) :
    List.Chain' roleStepOk (t ++ [Role.roleNone]) := by
  rw [List.chain'_append]
  refine ⟨ht, List.chain'_singleton _, ?_⟩
  intro x _ y hy
  simp only [List.head?_cons, Option.mem_def, Option.some_inj] at hy
  subst hy
  exact Or.inr (Or.inl rfl)

/-- Appending any role observation after a trace ending in None keeps the
trace compatible. -/
theorem roleChain_snoc_after_none (t : List Role) (r : Role)
    (ht : List.Chain' roleStepOk t)
    (hlast : t.getLast? = some Role.roleNone) :
    List.Chain' roleStepOk (t ++ [r]) := by
  rw [List.chain'_append]
  refine ⟨ht, List.chain'_singleton _, ?_⟩
  intro x hx y hy
  simp only [List.head?_cons, Option.mem_def, Option.some_inj] at hy
  subst hy
  rw [hlast] at hx
  simp only [Option.mem_def, Option.some_inj] at hx
  subst hx
  exact Or.inl rfl

/-- A cleared surface observably holds no role. -/
theorem slotRole_clear (s : Surface) :
    slotRole (some (wayland_surface_clear_role s)) = Role.roleNone := rfl

/-- A surface just given the top-level role observably holds it. -/
theorem slotRole_make_toplevel (s : Surface) :
    slotRole (some (wayland_surface_make_toplevel s)) = Role.toplevel :=
  rfl

/-- A cleared surface just given the sub-surface role observably holds
it. -/
theorem slotRole_make_subsurface_cleared (s : Surface) (ph : Nat) :
    slotRole (some (wayland_surface_make_subsurface
      (wayland_surface_clear_role s) ph)) = Role.subsurface := rfl

/-- A freshly created surface observably holds no role. -/
theorem slotRole_create (h : Nat) :
    slotRole (some (wayland_surface_create h)) = Role.roleNone := rfl

/-- The role-update block `uwsRoleUpdate` preserves compatibility of the
role trace: it only ever establishes a role right after a clear (when a
surface pre-existed) or on a trace already ending in None (a freshly
created surface). -/
theorem uwsRoleUpdate_chain (env : UwsEnv) (flags : UwsFlags)
    (data : WinData) (preexisting : Bool) (role : Role) (client : Bool)
    (s : Surface) (t : List Role) (ht : List.Chain' roleStepOk t)
    (hlast : preexisting = false → t.getLast? = some Role.roleNone) :
    List.Chain' roleStepOk
      (uwsRoleUpdate env flags data preexisting role client s t).2 := by
  unfold uwsRoleUpdate
  rcases preexisting
  · simp only [Bool.false_eq_true, if_false]
    split_ifs <;>
      first
        | exact ht
        | exact roleChain_snoc_after_none _ _ ht (hlast rfl)
  · simp only [if_true]
    split_ifs <;>
      first
        | exact ht
        | (dsimp only
           simp only [slotRole_clear, slotRole_make_toplevel,
             slotRole_make_subsurface_cleared]
           first
             | exact roleChain_snoc_none _ ht
             | exact roleChain_snoc_after_none _ _
                 (roleChain_snoc_none _ ht) (by simp))

/-- C1: role exclusivity.  In every invocation of
`wayland_win_data_update_wayland_surface`, the trace of observable roles
of the window's surface slot never steps directly from one non-None role
to a different non-None role: every role change passes through None
(surface destroyed and recreated, or its role cleared). -/
theorem update_surface_role_exclusivity (env : UwsEnv) (flags : UwsFlags)
    (data : WinData) :
    List.Chain' roleStepOk
      (wayland_win_data_update_wayland_surface env flags data).2 := by
  unfold wayland_win_data_update_wayland_surface
  rcases hs0 : data.wayland_surface with _ | s <;>
    simp only [hs0, slotRole_create] <;>
    split_ifs <;>
      (try dsimp only) <;>
      first
        | exact List.chain'_singleton _
        | exact roleChain_snoc_none _ (List.chain'_singleton _)
        | exact roleChain_snoc_none _
            (roleChain_snoc_none _ (List.chain'_singleton _))
        | exact uwsRoleUpdate_chain _ _ _ _ _ _ _ _
            (roleChain_snoc_none _ (List.chain'_singleton _))
            (fun _ => by simp)
        | exact uwsRoleUpdate_chain _ _ _ _ _ _ _ _
            (roleChain_snoc_none _
              (roleChain_snoc_none _ (List.chain'_singleton _)))
            (fun _ => by simp)
        | exact uwsRoleUpdate_chain _ _ _ _ _ _ _ _
            (List.chain'_singleton _) (fun habs => by simp at habs)

end WineWayland
